import Mathlib

/-!
# Project RED X (`src/red_x/main.c`)

A shallow embedding of the program: the application state, the event-polling
callback `main_loop`, the one-time render of the X, and `main` in both of its
compile-time variants (the self-driven `while (!state.quit)` loop and the
`__EMSCRIPTEN__` variant that registers `main_loop` with the host).

The graphics library is external.  Every call the program makes to it is
recorded, in order, in a trace of `Call`s; the three calls whose result the
program inspects (`SDL_Init`, `SDL_CreateWindow`, `SDL_CreateRenderer`) take
their result from a `Lib` record, and the event queue seen by each call of
`main_loop` is taken from a script (one list of events per tick).
-/

namespace RedX

/-! ## Constants -/

/-- The macro `#define WINDOW_WIDTH 800`. -/
def WINDOW_WIDTH : Int := 800

/-- The macro `#define WINDOW_HEIGHT 600`. -/
def WINDOW_HEIGHT : Int := 600

/-- The macro `#define LINE_THICKNESS 5`. -/
def LINE_THICKNESS : Int := 5

/-- An `SDL_Event`; the program reads nothing but its `type` field. -/
structure SDL_Event where
  type : Nat
deriving DecidableEq

/-- The event type `SDL_QUIT` of the SDL2 headers (`0x100`). -/
def SDL_QUIT : Nat := 0x100

/-- Which of the three diagnostics `main` prints on `stderr`. -/
inductive Diag where
  | sdlCouldNotInitialize
  | windowCouldNotBeCreated
  | rendererCouldNotBeCreated
deriving DecidableEq

/-- One call made by the program to a library, with its arguments (pointers are
numbers, `0` is `NULL`).  `SDL_PollEvent` also records what it returned:
`some e` for return value 1 with `e` stored, `none` for return value 0. -/
inductive Call where
  | SDL_Init
  | SDL_GetError
  | fprintf_stderr (msg : Diag)
  | SDL_CreateWindow (w h : Int)
  | SDL_CreateRenderer (window : Nat)
  | SDL_SetRenderDrawColor (renderer : Nat) (r g b a : Nat)
  | SDL_RenderClear (renderer : Nat)
  | SDL_RenderDrawLine (renderer : Nat) (x1 y1 x2 y2 : Int)
  | SDL_RenderPresent (renderer : Nat)
  | SDL_PollEvent (ret : Option SDL_Event)
  | SDL_Delay (ms : Nat)
  | SDL_DestroyRenderer (renderer : Nat)
  | SDL_DestroyWindow (window : Nat)
  | SDL_Quit
  | emscripten_set_main_loop_arg (fps : Int) (simulate_infinite_loop : Bool)
  | emscripten_cancel_main_loop
deriving DecidableEq

/-! ## Application state and the polling callback -/

/-- The struct `AppState`. -/
structure AppState where
  window : Nat
  renderer : Nat
  quit : Bool
deriving DecidableEq

/-- What one call of `main_loop` leaves behind: the state, the event queue, the
library calls it made, and whether it called `emscripten_cancel_main_loop`. -/
structure Tick where
  state : AppState
  queue : List SDL_Event
  trace : List Call
  cancelled : Bool
deriving DecidableEq

/-- The callback `main_loop(arg)`, run on the queue of pending events.
`while (SDL_PollEvent(&e) != 0)` pops the head of the queue until the queue is
empty; an event of type `SDL_QUIT` sets `state->quit` and, under
`__EMSCRIPTEN__`, calls `emscripten_cancel_main_loop()`. -/
def main_loop (emscripten : Bool) : AppState → List SDL_Event → Tick
  | s, [] => ⟨s, [], [Call.SDL_PollEvent none], false⟩
  | s, e :: q =>
    if e.type = SDL_QUIT then
      let r := main_loop emscripten { s with quit := true } q
      ⟨r.state, r.queue,
        Call.SDL_PollEvent (some e) ::
          (if emscripten then Call.emscripten_cancel_main_loop :: r.trace else r.trace),
        emscripten || r.cancelled⟩
    else
      let r := main_loop emscripten s q
      ⟨r.state, r.queue, Call.SDL_PollEvent (some e) :: r.trace, r.cancelled⟩

/-! ## The one-time render -/

/-- The counted loop `for (int i = 0; i < bound; i++) body(i)`. -/
def forLoop (bound : Int) (body : Int → List Call) : List Call :=
  (List.range bound.toNat).flatMap (fun i => body (i : Int))

/-- Body of the first loop of `main` (top-left to bottom-right). -/
def firstDiagonalBody (renderer : Nat) (i : Int) : List Call :=
  [Call.SDL_RenderDrawLine renderer i 0 (WINDOW_WIDTH - 1) (WINDOW_HEIGHT - i - 1),
   Call.SDL_RenderDrawLine renderer 0 i (WINDOW_WIDTH - i - 1) (WINDOW_HEIGHT - 1)]

/-- Body of the second loop of `main` (top-right to bottom-left). -/
def secondDiagonalBody (renderer : Nat) (i : Int) : List Call :=
  [Call.SDL_RenderDrawLine renderer (WINDOW_WIDTH - i - 1) 0 0 (WINDOW_HEIGHT - i - 1),
   Call.SDL_RenderDrawLine renderer (WINDOW_WIDTH - 1) i i (WINDOW_HEIGHT - 1)]

/-- The first loop of `main`. -/
def firstDiagonal (renderer : Nat) : List Call :=
  forLoop LINE_THICKNESS (firstDiagonalBody renderer)

/-- The second loop of `main`. -/
def secondDiagonal (renderer : Nat) : List Call :=
  forLoop LINE_THICKNESS (secondDiagonalBody renderer)

/-- Lines 70-98 of `main`: black background, red colour, the two loops, then
`SDL_RenderPresent`. -/
def render (s : AppState) : List Call :=
  [Call.SDL_SetRenderDrawColor s.renderer 0 0 0 255,
   Call.SDL_RenderClear s.renderer,
   Call.SDL_SetRenderDrawColor s.renderer 255 0 0 255]
  ++ firstDiagonal s.renderer
  ++ secondDiagonal s.renderer
  ++ [Call.SDL_RenderPresent s.renderer]

/-- Lines 110-113 of `main`: the clean-up. -/
def cleanup (s : AppState) : List Call :=
  [Call.SDL_DestroyRenderer s.renderer, Call.SDL_DestroyWindow s.window, Call.SDL_Quit]

/-! ## The two loops -/

/-- What a loop over a script of ticks leaves behind: the state, the calls
made, the ticks of the script that were never dispatched, and whether the loop
came to an end (`false`: the script ran out while the loop was still going). -/
structure Loop where
  state : AppState
  trace : List Call
  pending : List (List SDL_Event)
  ended : Bool
deriving DecidableEq

/-- The self-driven loop
`while (!state.quit) { main_loop(&state); SDL_Delay(16); }`;
each iteration takes the next queue of the script. -/
def whileNotQuit : AppState → List (List SDL_Event) → Loop
  | s, [] => ⟨s, [], [], s.quit⟩
  | s, q :: ticks =>
    if s.quit then ⟨s, [], q :: ticks, true⟩
    else
      let r := main_loop false s q
      let l := whileNotQuit r.state ticks
      ⟨l.state, r.trace ++ Call.SDL_Delay 16 :: l.trace, l.pending, l.ended⟩

/-- The host side of the registration: the host calls the registered callback
once per tick until a call of the callback has called
`emscripten_cancel_main_loop`. -/
def hostLoop : AppState → List (List SDL_Event) → Loop
  | s, [] => ⟨s, [], [], false⟩
  | s, q :: ticks =>
    let r := main_loop true s q
    if r.cancelled then ⟨r.state, r.trace, ticks, true⟩
    else
      let l := hostLoop r.state ticks
      ⟨l.state, r.trace ++ l.trace, l.pending, l.ended⟩

/-! ## `main` -/

/-- The results of the three library calls that `main` inspects. -/
structure Lib where
  initRet : Int
  window : Nat
  renderer : Nat
deriving DecidableEq

/-- A run of `main` over a script: the library calls in order, the exit code
(`none` when `main` has not returned), the final state and the ticks of the
script that were never dispatched. -/
structure Run where
  trace : List Call
  exit : Option Int
  state : AppState
  pending : List (List SDL_Event)
deriving DecidableEq

/-- The library call `emscripten_set_main_loop_arg(main_loop, &state, fps,
simulate_infinite_loop)` followed by the rest of the caller, `rest`.
With `simulate_infinite_loop` set the call does not return: the caller is
unwound and the statements after the call are never run; the host then drives
the callback.  With it clear the call returns at once, the caller runs on, and
the host drives the callback afterwards. -/
def emscripten_set_main_loop_arg (fps : Int) (simulate_infinite_loop : Bool)
    (before : List Call) (s : AppState) (ticks : List (List SDL_Event))
    (rest : AppState → List Call × Int) : Run :=
  let l := hostLoop s ticks
  let reg := Call.emscripten_set_main_loop_arg fps simulate_infinite_loop
  if simulate_infinite_loop then
    ⟨before ++ reg :: l.trace, none, l.state, l.pending⟩
  else
    ⟨before ++ reg :: ((rest s).1 ++ l.trace), some (rest s).2, l.state, l.pending⟩

/-- The state at the start of `main`: both handles `NULL`, `quit` false. -/
def initState : AppState := ⟨0, 0, false⟩

/-- The function `main`; `emscripten` selects the `#ifdef __EMSCRIPTEN__`
branches. -/
def main (emscripten : Bool) (lib : Lib) (ticks : List (List SDL_Event)) : Run :=
  let state := initState
  if lib.initRet < 0 then
    ⟨[Call.SDL_Init, Call.SDL_GetError, Call.fprintf_stderr Diag.sdlCouldNotInitialize],
      some 1, state, ticks⟩
  else
    let state := { state with window := lib.window }
    if state.window = 0 then
      ⟨[Call.SDL_Init, Call.SDL_CreateWindow WINDOW_WIDTH WINDOW_HEIGHT,
        Call.SDL_GetError, Call.fprintf_stderr Diag.windowCouldNotBeCreated,
        Call.SDL_Quit],
        some 1, state, ticks⟩
    else
      let state := { state with renderer := lib.renderer }
      if state.renderer = 0 then
        ⟨[Call.SDL_Init, Call.SDL_CreateWindow WINDOW_WIDTH WINDOW_HEIGHT,
          Call.SDL_CreateRenderer state.window,
          Call.SDL_GetError, Call.fprintf_stderr Diag.rendererCouldNotBeCreated,
          Call.SDL_DestroyWindow state.window, Call.SDL_Quit],
          some 1, state, ticks⟩
      else
        let before :=
          [Call.SDL_Init, Call.SDL_CreateWindow WINDOW_WIDTH WINDOW_HEIGHT,
           Call.SDL_CreateRenderer state.window] ++ render state
        if emscripten then
          emscripten_set_main_loop_arg 0 true before state ticks
            (fun s => (cleanup s, 0))
        else
          let l := whileNotQuit state ticks
          if l.ended then
            ⟨before ++ l.trace ++ cleanup l.state, some 0, l.state, l.pending⟩
          else
            ⟨before ++ l.trace, none, l.state, l.pending⟩

/-! ## Vocabulary for statements about traces and scripts -/

/-- The event is a quit request: `e.type == SDL_QUIT`. -/
def SDL_Event.isQuit (e : SDL_Event) : Bool := decide (e.type = SDL_QUIT)

/-- The queue holds a quit-request event. -/
def observesQuit (q : List SDL_Event) : Bool := q.any SDL_Event.isQuit

/-- The polls of a tick that drains the queue `q`: one successful poll per
event, in order, then the poll that finds the queue empty. -/
def pollsOf (q : List SDL_Event) : List Call :=
  q.map (fun e => Call.SDL_PollEvent (some e)) ++ [Call.SDL_PollEvent none]

/-- The call is `SDL_PollEvent`. -/
def Call.isPoll : Call → Bool
  | Call.SDL_PollEvent _ => true
  | _ => false

/-- The call is `SDL_SetRenderDrawColor`. -/
def Call.isSetColor : Call → Bool
  | Call.SDL_SetRenderDrawColor _ _ _ _ _ => true
  | _ => false

/-- The call is `SDL_RenderClear`. -/
def Call.isClear : Call → Bool
  | Call.SDL_RenderClear _ => true
  | _ => false

/-- The call is `SDL_RenderDrawLine`. -/
def Call.isDrawLine : Call → Bool
  | Call.SDL_RenderDrawLine _ _ _ _ _ => true
  | _ => false

/-- The call is `SDL_RenderPresent`. -/
def Call.isPresent : Call → Bool
  | Call.SDL_RenderPresent _ => true
  | _ => false

/-- The call is `SDL_DestroyRenderer`. -/
def Call.isDestroyRenderer : Call → Bool
  | Call.SDL_DestroyRenderer _ => true
  | _ => false

/-- The call is `SDL_DestroyWindow`. -/
def Call.isDestroyWindow : Call → Bool
  | Call.SDL_DestroyWindow _ => true
  | _ => false

/-- The call is one of the drawing operations: set-draw-color, clear,
draw-line, present. -/
def Call.isDrawing (c : Call) : Bool :=
  c.isSetColor || c.isClear || c.isDrawLine || c.isPresent

/-- The calls that the loops make: `SDL_PollEvent`, `SDL_Delay`,
`emscripten_cancel_main_loop`. -/
def Call.inLoop : Call → Bool
  | Call.SDL_PollEvent _ => true
  | Call.SDL_Delay _ => true
  | Call.emscripten_cancel_main_loop => true
  | _ => false

/-- The calls of the self-driven loop over ticks none of which holds a quit
request: each tick drains its queue, then `SDL_Delay(16)`. -/
def calmTrace (calm : List (List SDL_Event)) : List Call :=
  calm.flatMap (fun q => pollsOf q ++ [Call.SDL_Delay 16])

/-- The calls of `main` up to and including `SDL_CreateRenderer` when the
window was created. -/
def acquire (lib : Lib) : List Call :=
  [Call.SDL_Init, Call.SDL_CreateWindow WINDOW_WIDTH WINDOW_HEIGHT,
   Call.SDL_CreateRenderer lib.window]

/-- The state of `main` once both handles are stored. -/
def readyState (lib : Lib) : AppState := ⟨lib.window, lib.renderer, false⟩

/-- The call is `SDL_CreateWindow`. -/
def Call.isCreateWindow : Call → Bool
  | Call.SDL_CreateWindow _ _ => true
  | _ => false

/-- The call is `SDL_CreateRenderer`. -/
def Call.isCreateRenderer : Call → Bool
  | Call.SDL_CreateRenderer _ => true
  | _ => false

/-- In the run `r` the window creation was attempted and returned `NULL`. -/
def windowCreationFailed (lib : Lib) (r : Run) : Bool :=
  r.trace.any Call.isCreateWindow && decide (lib.window = 0)

/-- In the run `r` the renderer creation was attempted and returned `NULL`. -/
def rendererCreationFailed (lib : Lib) (r : Run) : Bool :=
  r.trace.any Call.isCreateRenderer && decide (lib.renderer = 0)

/-- In the run `r` the library initialisation `SDL_Init` returned a negative
value. -/
def initFailed (lib : Lib) (r : Run) : Bool :=
  r.trace.any (fun c => decide (c = Call.SDL_Init)) && decide (lib.initRet < 0)

/-- A line segment from `(x1, y1)` to `(x2, y2)`. -/
structure Segment where
  x1 : Int
  y1 : Int
  x2 : Int
  y2 : Int
deriving DecidableEq

/-- The segment of a draw-line call. -/
def Call.segment : Call → Option Segment
  | Call.SDL_RenderDrawLine _ x1 y1 x2 y2 => some ⟨x1, y1, x2, y2⟩
  | _ => none

/-- The segments drawn by a trace, in order. -/
def segmentsOf (trace : List Call) : List Segment := trace.filterMap Call.segment

/-- Both endpoints are pixels of the window. -/
def Segment.inWindow (g : Segment) : Bool :=
  decide (0 ≤ g.x1 ∧ g.x1 ≤ WINDOW_WIDTH - 1 ∧ 0 ≤ g.y1 ∧ g.y1 ≤ WINDOW_HEIGHT - 1 ∧
    0 ≤ g.x2 ∧ g.x2 ≤ WINDOW_WIDTH - 1 ∧ 0 ≤ g.y2 ∧ g.y2 ≤ WINDOW_HEIGHT - 1)

/-- The integer cross product `dx1 * dy2 - dx2 * dy1` of the direction vectors
of two segments; the segments are parallel when it is zero. -/
def cross (a b : Segment) : Int :=
  (a.x2 - a.x1) * (b.y2 - b.y1) - (b.x2 - b.x1) * (a.y2 - a.y1)

/-! ## Facts about `main_loop` -/

theorem main_loop_queue (em : Bool) (s : AppState) (q : List SDL_Event) :
    (main_loop em s q).queue = [] := by
  induction q generalizing s with
  | nil => rfl
  | cons e q ih =>
    unfold main_loop
    split <;> simp [ih]

theorem main_loop_state (em : Bool) (s : AppState) (q : List SDL_Event) :
    (main_loop em s q).state = { s with quit := s.quit || observesQuit q } := by
  induction q generalizing s with
  | nil => simp [main_loop, observesQuit]
  | cons e q ih =>
    unfold main_loop
    split
    · next h => simp [ih, observesQuit, SDL_Event.isQuit, h]
    · next h =>
      simp only [ih]
      simp [observesQuit, SDL_Event.isQuit, h]

theorem main_loop_cancelled (em : Bool) (s : AppState) (q : List SDL_Event) :
    (main_loop em s q).cancelled = (em && observesQuit q) := by
  induction q generalizing s with
  | nil => simp [main_loop, observesQuit]
  | cons e q ih =>
    unfold main_loop
    split
    · next h => cases em <;> simp [ih, observesQuit, SDL_Event.isQuit, h]
    · next h => simp [ih, observesQuit, SDL_Event.isQuit, h]

theorem main_loop_polls (em : Bool) (s : AppState) (q : List SDL_Event) :
    (main_loop em s q).trace.filter Call.isPoll = pollsOf q := by
  induction q generalizing s with
  | nil => simp [main_loop, pollsOf, Call.isPoll]
  | cons e q ih =>
    unfold main_loop
    split
    · cases em <;> simp [ih, pollsOf, Call.isPoll, List.filter_cons]
    · simp [ih, pollsOf, Call.isPoll, List.filter_cons]

theorem main_loop_native_trace (s : AppState) (q : List SDL_Event) :
    (main_loop false s q).trace = pollsOf q := by
  induction q generalizing s with
  | nil => simp [main_loop, pollsOf]
  | cons e q ih =>
    unfold main_loop
    split <;> simp [ih, pollsOf]

theorem main_loop_inLoop (em : Bool) (s : AppState) (q : List SDL_Event) :
    ∀ c ∈ (main_loop em s q).trace, c.inLoop = true := by
  induction q generalizing s with
  | nil => simp [main_loop, Call.inLoop]
  | cons e q ih =>
    unfold main_loop
    split
    · cases em <;> simp [Call.inLoop] <;> exact ih _
    · simp [Call.inLoop]
      exact ih _

theorem main_loop_calm (em : Bool) (s : AppState) (q : List SDL_Event)
    (hq : observesQuit q = false) :
    main_loop em s q = ⟨s, [], pollsOf q, false⟩ := by
  induction q generalizing s with
  | nil => simp [main_loop, pollsOf]
  | cons e q ih =>
    simp only [observesQuit, List.any_cons, Bool.or_eq_false_iff] at hq
    have he : ¬ e.type = SDL_QUIT := by simpa [SDL_Event.isQuit] using hq.1
    unfold main_loop
    simp [he, ih s hq.2, pollsOf]

/-! ## Facts about the two loops -/

theorem whileNotQuit_inLoop (s : AppState) (ticks : List (List SDL_Event)) :
    ∀ c ∈ (whileNotQuit s ticks).trace, c.inLoop = true := by
  induction ticks generalizing s with
  | nil => simp [whileNotQuit]
  | cons q ticks ih =>
    unfold whileNotQuit
    split
    · simp
    · intro c hc
      simp only [List.mem_append, List.mem_cons] at hc
      rcases hc with hc | hc | hc
      · exact main_loop_inLoop _ _ _ c hc
      · subst hc; rfl
      · exact ih _ c hc

theorem hostLoop_inLoop (s : AppState) (ticks : List (List SDL_Event)) :
    ∀ c ∈ (hostLoop s ticks).trace, c.inLoop = true := by
  induction ticks generalizing s with
  | nil => simp [hostLoop]
  | cons q ticks ih =>
    unfold hostLoop
    simp only
    split
    · exact main_loop_inLoop _ _ _
    · intro c hc
      simp only [List.mem_append] at hc
      rcases hc with hc | hc
      · exact main_loop_inLoop _ _ _ c hc
      · exact ih _ c hc

theorem whileNotQuit_calm (s : AppState) (calm : List (List SDL_Event))
    (hs : s.quit = false) (hcalm : ∀ q ∈ calm, observesQuit q = false) :
    whileNotQuit s calm = ⟨s, calmTrace calm, [], false⟩ := by
  induction calm with
  | nil => simp [whileNotQuit, calmTrace, hs]
  | cons q calm ih =>
    have hq := hcalm q (List.mem_cons_self _ _)
    have ih1 := ih (fun q1 h1 => hcalm q1 (List.mem_cons_of_mem _ h1))
    unfold whileNotQuit
    simp [hs, main_loop_calm false s q hq, ih1, calmTrace]

theorem whileNotQuit_split (s : AppState) (calm later : List (List SDL_Event))
    (qt : List SDL_Event) (hs : s.quit = false)
    (hcalm : ∀ q ∈ calm, observesQuit q = false) (hqt : observesQuit qt = true) :
    whileNotQuit s (calm ++ qt :: later) =
      ⟨{ s with quit := true },
        calmTrace calm ++ (pollsOf qt ++ [Call.SDL_Delay 16]), later, true⟩ := by
  induction calm with
  | nil =>
    have hst : (main_loop false s qt).state = { s with quit := true } := by
      rw [main_loop_state]; simp [hqt]
    cases later with
    | nil =>
      simp [whileNotQuit, hs, hst, main_loop_native_trace, calmTrace]
    | cons q later =>
      simp [whileNotQuit, hs, hst, main_loop_native_trace, calmTrace]
  | cons q calm ih =>
    have hq := hcalm q (List.mem_cons_self _ _)
    have ih1 := ih (fun q1 h1 => hcalm q1 (List.mem_cons_of_mem _ h1))
    rw [List.cons_append]
    unfold whileNotQuit
    simp [hs, main_loop_calm false s q hq, ih1, calmTrace]

theorem hostLoop_calm (s : AppState) (calm : List (List SDL_Event))
    (hcalm : ∀ q ∈ calm, observesQuit q = false) :
    hostLoop s calm = ⟨s, calm.flatMap pollsOf, [], false⟩ := by
  induction calm with
  | nil => simp [hostLoop]
  | cons q calm ih =>
    have hq := hcalm q (List.mem_cons_self _ _)
    have ih1 := ih (fun q1 h1 => hcalm q1 (List.mem_cons_of_mem _ h1))
    unfold hostLoop
    simp [main_loop_calm true s q hq, ih1]

theorem hostLoop_split (s : AppState) (calm later : List (List SDL_Event))
    (qt : List SDL_Event)
    (hcalm : ∀ q ∈ calm, observesQuit q = false) (hqt : observesQuit qt = true) :
    hostLoop s (calm ++ qt :: later) =
      ⟨{ s with quit := true },
        calm.flatMap pollsOf ++ (main_loop true s qt).trace, later, true⟩ := by
  induction calm with
  | nil =>
    have hst : (main_loop true s qt).state = { s with quit := true } := by
      rw [main_loop_state]; simp [hqt]
    have hc : (main_loop true s qt).cancelled = true := by
      rw [main_loop_cancelled]; simp [hqt]
    simp [hostLoop, hst, hc]
  | cons q calm ih =>
    have hq := hcalm q (List.mem_cons_self _ _)
    have ih1 := ih (fun q1 h1 => hcalm q1 (List.mem_cons_of_mem _ h1))
    rw [List.cons_append]
    unfold hostLoop
    simp [main_loop_calm true s q hq, ih1]

/-- A script in which some tick holds a quit request splits at the first such
tick. -/
theorem exists_first_quit_tick (ticks : List (List SDL_Event))
    (h : ∃ q ∈ ticks, observesQuit q = true) :
    ∃ calm qt later, ticks = calm ++ qt :: later ∧
      (∀ q ∈ calm, observesQuit q = false) ∧ observesQuit qt = true := by
  induction ticks with
  | nil => simp at h
  | cons q ticks ih =>
    by_cases hq : observesQuit q = true
    · exact ⟨[], q, ticks, rfl, by simp, hq⟩
    · have h1 : ∃ q1 ∈ ticks, observesQuit q1 = true := by
        obtain ⟨q1, hm, ho⟩ := h
        rcases List.mem_cons.mp hm with rfl | hm
        · exact absurd ho hq
        · exact ⟨q1, hm, ho⟩
      obtain ⟨calm, qt, later, he, hc, ht⟩ := ih h1
      refine ⟨q :: calm, qt, later, by simp [he], ?_, ht⟩
      intro q1 hm
      rcases List.mem_cons.mp hm with rfl | hm
      · simpa using hq
      · exact hc q1 hm

/-! ## Facts about the render and about `main` -/

theorem render_eq (s : AppState) :
    render s =
      [Call.SDL_SetRenderDrawColor s.renderer 0 0 0 255,
       Call.SDL_RenderClear s.renderer,
       Call.SDL_SetRenderDrawColor s.renderer 255 0 0 255,
       Call.SDL_RenderDrawLine s.renderer 0 0 799 599,
       Call.SDL_RenderDrawLine s.renderer 0 0 799 599,
       Call.SDL_RenderDrawLine s.renderer 1 0 799 598,
       Call.SDL_RenderDrawLine s.renderer 0 1 798 599,
       Call.SDL_RenderDrawLine s.renderer 2 0 799 597,
       Call.SDL_RenderDrawLine s.renderer 0 2 797 599,
       Call.SDL_RenderDrawLine s.renderer 3 0 799 596,
       Call.SDL_RenderDrawLine s.renderer 0 3 796 599,
       Call.SDL_RenderDrawLine s.renderer 4 0 799 595,
       Call.SDL_RenderDrawLine s.renderer 0 4 795 599,
       Call.SDL_RenderDrawLine s.renderer 799 0 0 599,
       Call.SDL_RenderDrawLine s.renderer 799 0 0 599,
       Call.SDL_RenderDrawLine s.renderer 798 0 0 598,
       Call.SDL_RenderDrawLine s.renderer 799 1 1 599,
       Call.SDL_RenderDrawLine s.renderer 797 0 0 597,
       Call.SDL_RenderDrawLine s.renderer 799 2 2 599,
       Call.SDL_RenderDrawLine s.renderer 796 0 0 596,
       Call.SDL_RenderDrawLine s.renderer 799 3 3 599,
       Call.SDL_RenderDrawLine s.renderer 795 0 0 595,
       Call.SDL_RenderDrawLine s.renderer 799 4 4 599,
       Call.SDL_RenderPresent s.renderer] := rfl

theorem main_native_success (lib : Lib) (ticks : List (List SDL_Event))
    (hinit : 0 ≤ lib.initRet) (hw : lib.window ≠ 0) (hr : lib.renderer ≠ 0) :
    main false lib ticks =
      if (whileNotQuit (readyState lib) ticks).ended then
        ⟨acquire lib ++ render (readyState lib)
            ++ (whileNotQuit (readyState lib) ticks).trace
            ++ cleanup (whileNotQuit (readyState lib) ticks).state,
          some 0, (whileNotQuit (readyState lib) ticks).state,
          (whileNotQuit (readyState lib) ticks).pending⟩
      else
        ⟨acquire lib ++ render (readyState lib)
            ++ (whileNotQuit (readyState lib) ticks).trace,
          none, (whileNotQuit (readyState lib) ticks).state,
          (whileNotQuit (readyState lib) ticks).pending⟩ := by
  have h0 : ¬ lib.initRet < 0 := not_lt.mpr hinit
  simp [main, h0, hw, hr, initState, readyState, acquire]

theorem main_host_success (lib : Lib) (ticks : List (List SDL_Event))
    (hinit : 0 ≤ lib.initRet) (hw : lib.window ≠ 0) (hr : lib.renderer ≠ 0) :
    main true lib ticks =
      ⟨acquire lib ++ render (readyState lib)
          ++ Call.emscripten_set_main_loop_arg 0 true
            :: (hostLoop (readyState lib) ticks).trace,
        none, (hostLoop (readyState lib) ticks).state,
        (hostLoop (readyState lib) ticks).pending⟩ := by
  have h0 : ¬ lib.initRet < 0 := not_lt.mpr hinit
  simp [main, h0, hw, hr, initState, readyState, acquire, emscripten_set_main_loop_arg]

/-- On every successful run, in either variant, the trace is the acquisition,
the render, and then calls none of which is a drawing, destroy-renderer or
acquisition call apart from the clean-up of a self-driven run that returned. -/
theorem main_success_shape (em : Bool) (lib : Lib) (ticks : List (List SDL_Event))
    (hinit : 0 ≤ lib.initRet) (hw : lib.window ≠ 0) (hr : lib.renderer ≠ 0) :
    ∃ post, (main em lib ticks).trace = acquire lib ++ render (readyState lib) ++ post ∧
      ∀ c ∈ post, c.isDrawing = false := by
  have key : ∀ c : Call, c.inLoop = true → c.isDrawing = false := by
    intro c hc; cases c <;> simp_all [Call.inLoop, Call.isDrawing, Call.isSetColor,
      Call.isClear, Call.isDrawLine, Call.isPresent]
  cases em with
  | true =>
    refine ⟨Call.emscripten_set_main_loop_arg 0 true :: (hostLoop (readyState lib) ticks).trace,
      by rw [main_host_success lib ticks hinit hw hr], ?_⟩
    intro c hc
    rcases List.mem_cons.mp hc with rfl | hc
    · rfl
    · exact key c (hostLoop_inLoop _ _ c hc)
  | false =>
    rw [main_native_success lib ticks hinit hw hr]
    split
    · refine ⟨(whileNotQuit (readyState lib) ticks).trace
          ++ cleanup (whileNotQuit (readyState lib) ticks).state, by simp, ?_⟩
      intro c hc
      rcases List.mem_append.mp hc with hc | hc
      · exact key c (whileNotQuit_inLoop _ _ c hc)
      · simp only [cleanup, List.mem_cons, List.mem_singleton, List.not_mem_nil, or_false] at hc
        rcases hc with rfl | rfl | rfl <;> rfl
    · refine ⟨(whileNotQuit (readyState lib) ticks).trace, by simp, ?_⟩
      intro c hc
      exact key c (whileNotQuit_inLoop _ _ c hc)

/-! ## The claims -/

/-- C1 (rollback invariant). In every run of `main` in which `SDL_CreateWindow`
succeeds and `SDL_CreateRenderer` fails, `main` returns (with code 1) after
exactly one `SDL_DestroyWindow`, on the window that was created; the trace
holds no drawing operation (set-draw-color, clear, draw-line, present) and no
`SDL_PollEvent`, and no tick of the script is dispatched. -/
theorem rollback_invariant (em : Bool) (lib : Lib) (ticks : List (List SDL_Event))
    (hinit : 0 ≤ lib.initRet) (hw : lib.window ≠ 0) (hr : lib.renderer = 0) :
    (main em lib ticks).trace =
        [Call.SDL_Init, Call.SDL_CreateWindow WINDOW_WIDTH WINDOW_HEIGHT,
         Call.SDL_CreateRenderer lib.window, Call.SDL_GetError,
         Call.fprintf_stderr Diag.rendererCouldNotBeCreated,
         Call.SDL_DestroyWindow lib.window, Call.SDL_Quit] ∧
      (main em lib ticks).exit = some 1 ∧
      (main em lib ticks).trace.filter Call.isDestroyWindow
        = [Call.SDL_DestroyWindow lib.window] ∧
      (main em lib ticks).trace.countP Call.isDestroyWindow = 1 ∧
      (main em lib ticks).trace.countP Call.isDrawing = 0 ∧
      (main em lib ticks).trace.countP Call.isPoll = 0 ∧
      (main em lib ticks).pending = ticks := by
  have h0 : ¬ lib.initRet < 0 := not_lt.mpr hinit
  have ht : (main em lib ticks).trace =
      [Call.SDL_Init, Call.SDL_CreateWindow WINDOW_WIDTH WINDOW_HEIGHT,
       Call.SDL_CreateRenderer lib.window, Call.SDL_GetError,
       Call.fprintf_stderr Diag.rendererCouldNotBeCreated,
       Call.SDL_DestroyWindow lib.window, Call.SDL_Quit] := by
    simp [main, h0, hw, hr, initState]
  refine ⟨ht, by simp [main, h0, hw, hr, initState], ?_, ?_, ?_, ?_,
    by simp [main, h0, hw, hr, initState]⟩
  · rw [ht]; rfl
  · rw [ht]; rfl
  · rw [ht]; rfl
  · rw [ht]; rfl

/-- Witness for C1: init succeeds, the window is handle 7, the renderer is `NULL`. -/
theorem rollback_invariant_witness :
    (main false ⟨0, 7, 0⟩ [[⟨SDL_QUIT⟩]]).trace =
        [Call.SDL_Init, Call.SDL_CreateWindow WINDOW_WIDTH WINDOW_HEIGHT,
         Call.SDL_CreateRenderer 7, Call.SDL_GetError,
         Call.fprintf_stderr Diag.rendererCouldNotBeCreated,
         Call.SDL_DestroyWindow 7, Call.SDL_Quit] ∧
      (main false ⟨0, 7, 0⟩ [[⟨SDL_QUIT⟩]]).exit = some 1 ∧
      (main false ⟨0, 7, 0⟩ [[⟨SDL_QUIT⟩]]).trace.filter Call.isDestroyWindow
        = [Call.SDL_DestroyWindow 7] ∧
      (main false ⟨0, 7, 0⟩ [[⟨SDL_QUIT⟩]]).trace.countP Call.isDestroyWindow = 1 ∧
      (main false ⟨0, 7, 0⟩ [[⟨SDL_QUIT⟩]]).trace.countP Call.isDrawing = 0 ∧
      (main false ⟨0, 7, 0⟩ [[⟨SDL_QUIT⟩]]).trace.countP Call.isPoll = 0 ∧
      (main false ⟨0, 7, 0⟩ [[⟨SDL_QUIT⟩]]).pending = [[⟨SDL_QUIT⟩]] :=
  rollback_invariant false ⟨0, 7, 0⟩ [[⟨SDL_QUIT⟩]] (by decide) (by decide) rfl

/-- C2 (exit codes). For every outcome of the library calls and every script:
`main` returns 1 when `SDL_CreateWindow` is attempted (`SDL_Init` succeeded) and
fails; `main` returns 1 when the window is created and `SDL_CreateRenderer`
fails; and when both are created and some tick of the script observes a quit
event, the self-driven `main` returns 0 with `SDL_DestroyRenderer`,
`SDL_DestroyWindow`, `SDL_Quit` as the last three calls of its trace. -/
theorem exit_codes (em : Bool) (lib : Lib) (ticks : List (List SDL_Event)) :
    (0 ≤ lib.initRet → lib.window = 0 →
        Call.SDL_CreateWindow WINDOW_WIDTH WINDOW_HEIGHT ∈ (main em lib ticks).trace ∧
        (main em lib ticks).exit = some 1) ∧
      (0 ≤ lib.initRet → lib.window ≠ 0 → lib.renderer = 0 →
        (main em lib ticks).exit = some 1) ∧
      (0 ≤ lib.initRet → lib.window ≠ 0 → lib.renderer ≠ 0 →
        (∃ q ∈ ticks, observesQuit q = true) →
        (main false lib ticks).exit = some 0 ∧
        ∃ body, (main false lib ticks).trace =
          body ++ [Call.SDL_DestroyRenderer lib.renderer,
                   Call.SDL_DestroyWindow lib.window, Call.SDL_Quit]) := by
  refine ⟨?_, ?_, ?_⟩
  · intro hinit hw
    have h0 : ¬ lib.initRet < 0 := not_lt.mpr hinit
    simp [main, h0, hw, initState]
  · intro hinit hw hr
    have h0 : ¬ lib.initRet < 0 := not_lt.mpr hinit
    simp [main, h0, hw, hr, initState]
  · intro hinit hw hr hq
    obtain ⟨calm, qt, later, he, hc, ht⟩ := exists_first_quit_tick ticks hq
    rw [main_native_success lib ticks hinit hw hr, he,
      whileNotQuit_split (readyState lib) calm later qt rfl hc ht]
    exact ⟨rfl, _, rfl⟩

/-- Witness for C2: one run for each of the three cases. -/
theorem exit_codes_witness :
    (Call.SDL_CreateWindow WINDOW_WIDTH WINDOW_HEIGHT ∈ (main false ⟨0, 0, 9⟩ []).trace ∧
        (main false ⟨0, 0, 9⟩ []).exit = some 1) ∧
      (main false ⟨0, 7, 0⟩ []).exit = some 1 ∧
      ((main false ⟨0, 7, 9⟩ [[⟨1024⟩], [⟨SDL_QUIT⟩]]).exit = some 0 ∧
        ∃ body, (main false ⟨0, 7, 9⟩ [[⟨1024⟩], [⟨SDL_QUIT⟩]]).trace =
          body ++ [Call.SDL_DestroyRenderer 9, Call.SDL_DestroyWindow 7, Call.SDL_Quit]) :=
  ⟨(exit_codes false ⟨0, 0, 9⟩ []).1 (by decide) rfl,
   (exit_codes false ⟨0, 7, 0⟩ []).2.1 (by decide) (by decide) rfl,
   (exit_codes false ⟨0, 7, 9⟩ [[⟨1024⟩], [⟨SDL_QUIT⟩]]).2.2 (by decide) (by decide)
     (by decide) ⟨[⟨SDL_QUIT⟩], by simp, by decide⟩⟩

/-- C3 (single render invariant). On every successful run (window and renderer
created), in either variant and for every script of per-tick event queues, the
trace is `pre ++ SDL_RenderPresent :: post` where `pre` holds no
`SDL_PollEvent` and no present, and `post` (which holds every poll) holds no
clear, draw-line or present: present is called exactly once, before the first
poll tick, and nothing is drawn from the first poll tick on. -/
theorem single_render (em : Bool) (lib : Lib) (ticks : List (List SDL_Event))
    (hinit : 0 ≤ lib.initRet) (hw : lib.window ≠ 0) (hr : lib.renderer ≠ 0) :
    (main em lib ticks).trace.countP Call.isPresent = 1 ∧
      ∃ pre post,
        (main em lib ticks).trace = pre ++ Call.SDL_RenderPresent lib.renderer :: post ∧
        pre.countP Call.isPoll = 0 ∧ pre.countP Call.isPresent = 0 ∧
        post.countP Call.isClear = 0 ∧ post.countP Call.isDrawLine = 0 ∧
        post.countP Call.isPresent = 0 := by
  obtain ⟨post, ht, hpost⟩ := main_success_shape em lib ticks hinit hw hr
  have hclear : post.countP Call.isClear = 0 := by
    rw [List.countP_eq_zero]
    intro c hc
    have := hpost c hc
    simp only [Call.isDrawing, Bool.or_eq_false_iff] at this
    simp [this.1.1.2]
  have hline : post.countP Call.isDrawLine = 0 := by
    rw [List.countP_eq_zero]
    intro c hc
    have := hpost c hc
    simp only [Call.isDrawing, Bool.or_eq_false_iff] at this
    simp [this.1.2]
  have hpres : post.countP Call.isPresent = 0 := by
    rw [List.countP_eq_zero]
    intro c hc
    have := hpost c hc
    simp only [Call.isDrawing, Bool.or_eq_false_iff] at this
    simp [this.2]
  refine ⟨?_, (acquire lib ++ (render (readyState lib)).dropLast), post, ?_, ?_, ?_,
    hclear, hline, hpres⟩
  · rw [ht, List.countP_append, List.countP_append, hpres, render_eq]
    simp [acquire, Call.isPresent, List.countP_cons]
  · rw [ht, render_eq]
    simp [readyState]
  · rw [render_eq]
    simp [acquire, Call.isPoll, List.countP_cons, List.countP_append]
  · rw [render_eq]
    simp [acquire, Call.isPresent, List.countP_cons, List.countP_append]

/-- Witness for C3: a successful self-driven run of two ticks. -/
theorem single_render_witness :
    (main false ⟨0, 7, 9⟩ [[⟨1024⟩], [⟨SDL_QUIT⟩]]).trace.countP Call.isPresent = 1 ∧
      ∃ pre post,
        (main false ⟨0, 7, 9⟩ [[⟨1024⟩], [⟨SDL_QUIT⟩]]).trace
          = pre ++ Call.SDL_RenderPresent 9 :: post ∧
        pre.countP Call.isPoll = 0 ∧ pre.countP Call.isPresent = 0 ∧
        post.countP Call.isClear = 0 ∧ post.countP Call.isDrawLine = 0 ∧
        post.countP Call.isPresent = 0 :=
  single_render false ⟨0, 7, 9⟩ [[⟨1024⟩], [⟨SDL_QUIT⟩]] (by decide) (by decide) (by decide)

/-- C5 (monotonic termination). `main` starts from `quit = false`; a call of
`main_loop` on any state whose `quit` flag is true, with any event queue and in
either variant, returns that very state (flag still true, handles untouched);
and after a tick whose queue held a quit event the flag is true and every
further tick leaves the whole state as it is. -/
theorem monotonic_termination (em : Bool) (s : AppState) (q later : List SDL_Event) :
    initState.quit = false ∧
      (s.quit = true → (main_loop em s q).state.quit = true ∧ (main_loop em s q).state = s) ∧
      (observesQuit q = true →
        (main_loop em s q).state.quit = true ∧
        (main_loop em (main_loop em s q).state later).state = (main_loop em s q).state) := by
  have fixed : ∀ (t : AppState) (p : List SDL_Event), t.quit = true →
      (main_loop em t p).state = t := by
    intro t p ht
    rw [main_loop_state]
    cases t
    simp_all
  refine ⟨rfl, ?_, ?_⟩
  · intro hs
    have h := fixed s q hs
    exact ⟨by rw [h]; exact hs, h⟩
  · intro hq
    have h1 : (main_loop em s q).state.quit = true := by
      rw [main_loop_state]; simp [hq]
    exact ⟨h1, fixed _ later h1⟩

/-- Witness for C5: a state with the flag set, and a state that sees a quit event. -/
theorem monotonic_termination_witness :
    initState.quit = false ∧
      ((main_loop false ⟨7, 9, true⟩ [⟨1024⟩, ⟨SDL_QUIT⟩]).state.quit = true ∧
        (main_loop false ⟨7, 9, true⟩ [⟨1024⟩, ⟨SDL_QUIT⟩]).state = ⟨7, 9, true⟩) ∧
      ((main_loop false ⟨7, 9, false⟩ [⟨1024⟩, ⟨SDL_QUIT⟩]).state.quit = true ∧
        (main_loop false (main_loop false ⟨7, 9, false⟩ [⟨1024⟩, ⟨SDL_QUIT⟩]).state
            [⟨768⟩]).state
          = (main_loop false ⟨7, 9, false⟩ [⟨1024⟩, ⟨SDL_QUIT⟩]).state) :=
  ⟨(monotonic_termination false ⟨7, 9, true⟩ [⟨1024⟩, ⟨SDL_QUIT⟩] []).1,
   (monotonic_termination false ⟨7, 9, true⟩ [⟨1024⟩, ⟨SDL_QUIT⟩] []).2.1 rfl,
   (monotonic_termination false ⟨7, 9, false⟩ [⟨1024⟩, ⟨SDL_QUIT⟩] [⟨768⟩]).2.2 (by decide)⟩

/-- C6 (teardown order). On every successful self-driven run in which some tick
observes a quit event, `main` returns 0 and its trace is
`SDL_Init, SDL_CreateWindow, SDL_CreateRenderer`, then a body made of drawing,
poll and delay calls only, then `SDL_DestroyRenderer, SDL_DestroyWindow,
SDL_Quit`: each handle is destroyed exactly once, the renderer before the
window, both after the last poll, and `SDL_Quit` is the last call. -/
theorem teardown_order (lib : Lib) (ticks : List (List SDL_Event))
    (hinit : 0 ≤ lib.initRet) (hw : lib.window ≠ 0) (hr : lib.renderer ≠ 0)
    (hq : ∃ q ∈ ticks, observesQuit q = true) :
    (main false lib ticks).exit = some 0 ∧
      (main false lib ticks).trace.countP Call.isDestroyRenderer = 1 ∧
      (main false lib ticks).trace.countP Call.isDestroyWindow = 1 ∧
      ∃ body,
        (main false lib ticks).trace =
          [Call.SDL_Init, Call.SDL_CreateWindow WINDOW_WIDTH WINDOW_HEIGHT,
           Call.SDL_CreateRenderer lib.window]
          ++ body
          ++ [Call.SDL_DestroyRenderer lib.renderer, Call.SDL_DestroyWindow lib.window,
              Call.SDL_Quit] ∧
        ∀ c ∈ body, c.isDrawing = true ∨ c.inLoop = true := by
  obtain ⟨calm, qt, later, he, hc, ht⟩ := exists_first_quit_tick ticks hq
  have hl := whileNotQuit_split (readyState lib) calm later qt rfl hc ht
  have hin := whileNotQuit_inLoop (readyState lib) (calm ++ qt :: later)
  rw [hl] at hin
  simp only at hin
  have hbody : ∀ c ∈ render (readyState lib)
      ++ (calmTrace calm ++ (pollsOf qt ++ [Call.SDL_Delay 16])),
      c.isDrawing = true ∨ c.inLoop = true := by
    intro c hc
    rcases List.mem_append.mp hc with hc | hc
    · left
      rw [render_eq] at hc
      simp only [List.mem_cons, List.mem_singleton, List.not_mem_nil, or_false] at hc
      rcases hc with h | h | h | h | h | h | h | h | h | h | h | h | h | h | h | h | h | h
        | h | h | h | h | h | h <;> subst h <;> rfl
    · right; exact hin c hc
  have hnoR : ∀ c : Call, (c.isDrawing = true ∨ c.inLoop = true) →
      c.isDestroyRenderer = false ∧ c.isDestroyWindow = false := by
    intro c hc
    cases c <;> simp_all [Call.inLoop, Call.isDrawing, Call.isSetColor, Call.isClear,
      Call.isDrawLine, Call.isPresent, Call.isDestroyRenderer, Call.isDestroyWindow]
  have htrace : (main false lib ticks).trace =
      [Call.SDL_Init, Call.SDL_CreateWindow WINDOW_WIDTH WINDOW_HEIGHT,
       Call.SDL_CreateRenderer lib.window]
      ++ (render (readyState lib) ++ (calmTrace calm ++ (pollsOf qt ++ [Call.SDL_Delay 16])))
      ++ [Call.SDL_DestroyRenderer lib.renderer, Call.SDL_DestroyWindow lib.window,
          Call.SDL_Quit] := by
    rw [main_native_success lib ticks hinit hw hr, he, hl]
    simp [acquire, cleanup, readyState]
  have hzR : (render (readyState lib)
      ++ (calmTrace calm ++ (pollsOf qt ++ [Call.SDL_Delay 16]))).countP
        Call.isDestroyRenderer = 0 := by
    rw [List.countP_eq_zero]
    intro c hc
    simp [(hnoR c (hbody c hc)).1]
  have hzW : (render (readyState lib)
      ++ (calmTrace calm ++ (pollsOf qt ++ [Call.SDL_Delay 16]))).countP
        Call.isDestroyWindow = 0 := by
    rw [List.countP_eq_zero]
    intro c hc
    simp [(hnoR c (hbody c hc)).2]
  refine ⟨?_, ?_, ?_, _, htrace, hbody⟩
  · rw [main_native_success lib ticks hinit hw hr, he, hl]
    rfl
  · rw [htrace, List.countP_append, List.countP_append, hzR]
    simp [Call.isDestroyRenderer, List.countP_cons]
  · rw [htrace, List.countP_append, List.countP_append, hzW]
    simp [Call.isDestroyWindow, List.countP_cons]

/-- Witness for C6: a successful self-driven run whose second tick sees the quit event. -/
theorem teardown_order_witness :
    (main false ⟨0, 7, 9⟩ [[⟨1024⟩], [⟨SDL_QUIT⟩]]).exit = some 0 ∧
      (main false ⟨0, 7, 9⟩ [[⟨1024⟩], [⟨SDL_QUIT⟩]]).trace.countP
        Call.isDestroyRenderer = 1 ∧
      (main false ⟨0, 7, 9⟩ [[⟨1024⟩], [⟨SDL_QUIT⟩]]).trace.countP
        Call.isDestroyWindow = 1 ∧
      ∃ body,
        (main false ⟨0, 7, 9⟩ [[⟨1024⟩], [⟨SDL_QUIT⟩]]).trace =
          [Call.SDL_Init, Call.SDL_CreateWindow WINDOW_WIDTH WINDOW_HEIGHT,
           Call.SDL_CreateRenderer 7]
          ++ body
          ++ [Call.SDL_DestroyRenderer 9, Call.SDL_DestroyWindow 7, Call.SDL_Quit] ∧
        ∀ c ∈ body, c.isDrawing = true ∨ c.inLoop = true :=
  teardown_order ⟨0, 7, 9⟩ [[⟨1024⟩], [⟨SDL_QUIT⟩]] (by decide) (by decide) (by decide)
    ⟨[⟨SDL_QUIT⟩], by simp, by decide⟩

/-- C7 (`main_loop` drains the queue and reacts only to quit). For every state
`s`, every finite queue `q` and either variant, one call of `main_loop` polls
each event of `q` in order (those after a quit event too) and then once more,
finding the queue empty, and returns; the queue is left empty, `window` and
`renderer` are unchanged, `quit` ends as `s.quit || (q holds a quit event)`,
and a queue with no quit event leaves the whole state unchanged. -/
theorem main_loop_drains (em : Bool) (s : AppState) (q : List SDL_Event) :
    (main_loop em s q).queue = [] ∧
      (main_loop em s q).trace.filter Call.isPoll = pollsOf q ∧
      (main_loop em s q).trace.countP Call.isPoll = q.length + 1 ∧
      (main_loop em s q).state.window = s.window ∧
      (main_loop em s q).state.renderer = s.renderer ∧
      (main_loop em s q).state.quit = (s.quit || observesQuit q) ∧
      (observesQuit q = false → (main_loop em s q).state = s) := by
  refine ⟨main_loop_queue em s q, main_loop_polls em s q, ?_, ?_, ?_, ?_, ?_⟩
  · rw [List.countP_eq_length_filter, main_loop_polls]
    simp [pollsOf]
  · rw [main_loop_state]
  · rw [main_loop_state]
  · rw [main_loop_state]
  · intro hq
    rw [main_loop_calm em s q hq]

/-- Witness for C7: a queue of two events, neither a quit request. -/
theorem main_loop_drains_witness :
    (main_loop false ⟨7, 9, false⟩ [⟨1024⟩, ⟨768⟩]).queue = [] ∧
      (main_loop false ⟨7, 9, false⟩ [⟨1024⟩, ⟨768⟩]).trace.filter Call.isPoll
        = pollsOf [⟨1024⟩, ⟨768⟩] ∧
      (main_loop false ⟨7, 9, false⟩ [⟨1024⟩, ⟨768⟩]).trace.countP Call.isPoll = 3 ∧
      (main_loop false ⟨7, 9, false⟩ [⟨1024⟩, ⟨768⟩]).state.window = 7 ∧
      (main_loop false ⟨7, 9, false⟩ [⟨1024⟩, ⟨768⟩]).state.renderer = 9 ∧
      (main_loop false ⟨7, 9, false⟩ [⟨1024⟩, ⟨768⟩]).state.quit = false ∧
      (main_loop false ⟨7, 9, false⟩ [⟨1024⟩, ⟨768⟩]).state = ⟨7, 9, false⟩ :=
  have h := main_loop_drains false ⟨7, 9, false⟩ [⟨1024⟩, ⟨768⟩]
  ⟨h.1, h.2.1, h.2.2.1, h.2.2.2.1, h.2.2.2.2.1, h.2.2.2.2.2.1, h.2.2.2.2.2.2 (by decide)⟩

/-- C8, as stated, fails: when `SDL_Init` fails `main` exits with code 1
although neither the window creation nor the renderer creation failed (neither
was attempted), so code 1 has a third cause and a run without a failed creation
need not end with code 0. -/
theorem no_other_exit_paths_counterexample :
    ¬ (∀ (em : Bool) (lib : Lib) (ticks : List (List SDL_Event)),
        ((main em lib ticks).exit = some 1 →
          windowCreationFailed lib (main em lib ticks) = true ∨
          rendererCreationFailed lib (main em lib ticks) = true) ∧
        (windowCreationFailed lib (main em lib ticks) = false →
          rendererCreationFailed lib (main em lib ticks) = false →
          (main em lib ticks).exit = some 0)) := by
  intro h
  have h1 := (h false ⟨-1, 7, 9⟩ [[⟨SDL_QUIT⟩]]).1
  revert h1
  decide

/-- C8, amended. `main` exits with code 1 exactly when `SDL_Init` fails, or the
window creation fails, or the renderer creation fails; `main` returns no code
other than 0 and 1; and a self-driven run in which none of the three fails
returns 0 once some tick observes a quit event. -/
theorem exit_paths (em : Bool) (lib : Lib) (ticks : List (List SDL_Event)) :
    ((main em lib ticks).exit = some 1 ↔
        (initFailed lib (main em lib ticks) = true ∨
         windowCreationFailed lib (main em lib ticks) = true ∨
         rendererCreationFailed lib (main em lib ticks) = true)) ∧
      ((main em lib ticks).exit = some 1 ∨ (main em lib ticks).exit = some 0 ∨
        (main em lib ticks).exit = none) ∧
      (initFailed lib (main false lib ticks) = false →
        windowCreationFailed lib (main false lib ticks) = false →
        rendererCreationFailed lib (main false lib ticks) = false →
        (∃ q ∈ ticks, observesQuit q = true) →
        (main false lib ticks).exit = some 0) := by
  by_cases h0 : lib.initRet < 0
  · refine ⟨?_, ?_, ?_⟩
    · simp [main, h0, initFailed]
    · simp [main, h0]
    · simp [main, h0, initFailed]
  · have hinit : 0 ≤ lib.initRet := not_lt.mp h0
    by_cases hw : lib.window = 0
    · refine ⟨?_, ?_, ?_⟩
      · simp [main, h0, hw, initState, windowCreationFailed, Call.isCreateWindow]
      · simp [main, h0, hw, initState]
      · simp [main, h0, hw, initState, windowCreationFailed, Call.isCreateWindow]
    · by_cases hr : lib.renderer = 0
      · refine ⟨?_, ?_, ?_⟩
        · simp [main, h0, hw, hr, initState, rendererCreationFailed, Call.isCreateRenderer]
        · simp [main, h0, hw, hr, initState]
        · simp [main, h0, hw, hr, initState, rendererCreationFailed, Call.isCreateRenderer]
      · have hne : (main em lib ticks).exit ≠ some 1 ∧
            ((main em lib ticks).exit = some 0 ∨ (main em lib ticks).exit = none) := by
          cases em with
          | true => rw [main_host_success lib ticks hinit hw hr]; simp
          | false =>
            rw [main_native_success lib ticks hinit hw hr]
            split <;> simp
        refine ⟨?_, Or.inr hne.2, ?_⟩
        · simp [hne.1, initFailed, windowCreationFailed, rendererCreationFailed, h0, hw, hr]
        · intro _ _ _ hq
          obtain ⟨calm, qt, later, he, hc, ht⟩ := exists_first_quit_tick ticks hq
          rw [main_native_success lib ticks hinit hw hr, he,
            whileNotQuit_split (readyState lib) calm later qt rfl hc ht]
          rfl

/-- Witness for the amended C8: a run in which `SDL_Init` fails and a run in which nothing fails. -/
theorem exit_paths_witness :
    (main false ⟨-1, 7, 9⟩ [[⟨SDL_QUIT⟩]]).exit = some 1 ∧
      (main false ⟨0, 7, 9⟩ [[⟨SDL_QUIT⟩]]).exit = some 0 :=
  ⟨(exit_paths false ⟨-1, 7, 9⟩ [[⟨SDL_QUIT⟩]]).1.mpr (Or.inl (by decide)),
   (exit_paths false ⟨0, 7, 9⟩ [[⟨SDL_QUIT⟩]]).2.2 (by decide) (by decide) (by decide)
     ⟨[⟨SDL_QUIT⟩], by simp, by decide⟩⟩

theorem segmentsOf_append (l1 l2 : List Call) :
    segmentsOf (l1 ++ l2) = segmentsOf l1 ++ segmentsOf l2 := by
  simp [segmentsOf, List.filterMap_append]

theorem segmentsOf_not_drawing (l : List Call) (h : ∀ c ∈ l, c.isDrawing = false) :
    segmentsOf l = [] := by
  induction l with
  | nil => rfl
  | cons c l ih =>
    have hc := h c (List.mem_cons_self _ _)
    have hl := ih (fun d hd => h d (List.mem_cons_of_mem _ hd))
    simp only [Call.isDrawing, Bool.or_eq_false_iff] at hc
    have hnone : c.segment = none := by
      cases c <;> first | rfl | exact absurd hc.1.2 (by simp [Call.isDrawLine])
    simpa [segmentsOf, hnone] using hl

/-- C9 (geometric determinism). On every successful run, in either variant,
whatever the handles and the script, the segments drawn are the same 20 =
4 * LINE_THICKNESS segments: for i = 0..4 the pair (i,0)-(799,599-i),
(0,i)-(799-i,599), then for i = 0..4 the pair (799-i,0)-(0,599-i),
(799,i)-(i,599); the first is (0,0)-(799,599), the first of the second bar is
(799,0)-(0,599), and every endpoint has 0 <= x <= 799 and 0 <= y <= 599. -/
theorem geometric_determinism (em : Bool) (lib : Lib) (ticks : List (List SDL_Event))
    (hinit : 0 ≤ lib.initRet) (hw : lib.window ≠ 0) (hr : lib.renderer ≠ 0) :
    segmentsOf (main em lib ticks).trace =
        (List.range 5).flatMap (fun i =>
          [(⟨i, 0, 799, 599 - i⟩ : Segment), ⟨0, i, 799 - i, 599⟩])
        ++ (List.range 5).flatMap (fun i =>
          [(⟨799 - i, 0, 0, 599 - i⟩ : Segment), ⟨799, i, i, 599⟩]) ∧
      (segmentsOf (main em lib ticks).trace).length = 20 ∧
      (20 : Int) = 4 * LINE_THICKNESS ∧
      (segmentsOf (main em lib ticks).trace)[0]? = some ⟨0, 0, 799, 599⟩ ∧
      (segmentsOf (main em lib ticks).trace)[10]? = some ⟨799, 0, 0, 599⟩ ∧
      (segmentsOf (main em lib ticks).trace).all Segment.inWindow = true := by
  obtain ⟨post, ht, hpost⟩ := main_success_shape em lib ticks hinit hw hr
  have hseg : segmentsOf (main em lib ticks).trace =
      (List.range 5).flatMap (fun i =>
        [(⟨i, 0, 799, 599 - i⟩ : Segment), ⟨0, i, 799 - i, 599⟩])
      ++ (List.range 5).flatMap (fun i =>
        [(⟨799 - i, 0, 0, 599 - i⟩ : Segment), ⟨799, i, i, 599⟩]) := by
    rw [ht, segmentsOf_append, segmentsOf_append, segmentsOf_not_drawing post hpost,
      render_eq]
    rfl
  rw [hseg]
  exact ⟨rfl, by decide, by decide, by decide, by decide, by decide⟩

/-- Witness for C9: a successful self-driven run of two ticks. -/
theorem geometric_determinism_witness :
    segmentsOf (main false ⟨0, 7, 9⟩ [[⟨1024⟩], [⟨SDL_QUIT⟩]]).trace =
        (List.range 5).flatMap (fun i =>
          [(⟨i, 0, 799, 599 - i⟩ : Segment), ⟨0, i, 799 - i, 599⟩])
        ++ (List.range 5).flatMap (fun i =>
          [(⟨799 - i, 0, 0, 599 - i⟩ : Segment), ⟨799, i, i, 599⟩]) ∧
      (segmentsOf (main false ⟨0, 7, 9⟩ [[⟨1024⟩], [⟨SDL_QUIT⟩]]).trace).length = 20 ∧
      (20 : Int) = 4 * LINE_THICKNESS ∧
      (segmentsOf (main false ⟨0, 7, 9⟩ [[⟨1024⟩], [⟨SDL_QUIT⟩]]).trace)[0]?
        = some ⟨0, 0, 799, 599⟩ ∧
      (segmentsOf (main false ⟨0, 7, 9⟩ [[⟨1024⟩], [⟨SDL_QUIT⟩]]).trace)[10]?
        = some ⟨799, 0, 0, 599⟩ ∧
      (segmentsOf (main false ⟨0, 7, 9⟩ [[⟨1024⟩], [⟨SDL_QUIT⟩]]).trace).all
        Segment.inWindow = true :=
  geometric_determinism false ⟨0, 7, 9⟩ [[⟨1024⟩], [⟨SDL_QUIT⟩]] (by decide) (by decide)
    (by decide)

/-- C10, as stated, fails: the segment (1,0)-(799,598) drawn at offset i = 1
for the top-left-to-bottom-right bar has cross product 200, not 0, with that
bar's i = 0 segment (0,0)-(799,599). -/
theorem bars_parallel_counterexample :
    ¬ (∀ g ∈ segmentsOf (firstDiagonal 9), cross g ⟨0, 0, 799, 599⟩ = 0) := by
  intro h
  have h1 := h ⟨1, 0, 799, 598⟩ (by decide)
  revert h1
  decide

/-- C10, amended. The two loops draw, at each offset i, the pair
(i,0)-(799,599-i), (0,i)-(799-i,599) for the first bar and the pair
(799-i,0)-(0,599-i), (799,i)-(i,599) for the second; the two segments of a pair
are parallel to each other (cross product 0), and the cross product of either
with the bar's i = 0 segment is 200*i for the first bar and -200*i for the
second, which is zero for i = 0 only. -/
theorem bars_cross_product (renderer : Nat) (i : Int) :
    firstDiagonal renderer
        = (List.range 5).flatMap (fun k => firstDiagonalBody renderer (k : Int)) ∧
      secondDiagonal renderer
        = (List.range 5).flatMap (fun k => secondDiagonalBody renderer (k : Int)) ∧
      segmentsOf (firstDiagonalBody renderer i)
        = [⟨i, 0, 799, 599 - i⟩, ⟨0, i, 799 - i, 599⟩] ∧
      segmentsOf (secondDiagonalBody renderer i)
        = [⟨799 - i, 0, 0, 599 - i⟩, ⟨799, i, i, 599⟩] ∧
      cross ⟨i, 0, 799, 599 - i⟩ ⟨0, i, 799 - i, 599⟩ = 0 ∧
      cross ⟨799 - i, 0, 0, 599 - i⟩ ⟨799, i, i, 599⟩ = 0 ∧
      cross ⟨i, 0, 799, 599 - i⟩ ⟨0, 0, 799, 599⟩ = 200 * i ∧
      cross ⟨0, i, 799 - i, 599⟩ ⟨0, 0, 799, 599⟩ = 200 * i ∧
      cross ⟨799 - i, 0, 0, 599 - i⟩ ⟨799, 0, 0, 599⟩ = -200 * i ∧
      cross ⟨799, i, i, 599⟩ ⟨799, 0, 0, 599⟩ = -200 * i ∧
      (cross ⟨i, 0, 799, 599 - i⟩ ⟨0, 0, 799, 599⟩ = 0 ↔ i = 0) ∧
      (cross ⟨799 - i, 0, 0, 599 - i⟩ ⟨799, 0, 0, 599⟩ = 0 ↔ i = 0) := by
  refine ⟨rfl, rfl, ?_, ?_, ?_, ?_, ?_, ?_, ?_, ?_, ?_, ?_⟩
  · have e1 : (600 : Int) - i - 1 = 599 - i := by ring
    have e2 : (800 : Int) - i - 1 = 799 - i := by ring
    simp [segmentsOf, firstDiagonalBody, Call.segment, WINDOW_WIDTH, WINDOW_HEIGHT, e1, e2]
  · have e1 : (600 : Int) - i - 1 = 599 - i := by ring
    have e2 : (800 : Int) - i - 1 = 799 - i := by ring
    simp [segmentsOf, secondDiagonalBody, Call.segment, WINDOW_WIDTH, WINDOW_HEIGHT, e1, e2]
  all_goals simp only [cross]
  · ring
  · ring
  · ring
  · ring
  · ring
  · ring
  · constructor
    · intro h; linarith
    · intro h; subst h; norm_num
  · constructor
    · intro h; linarith
    · intro h; subst h; norm_num

/-- On every successful run of the `__EMSCRIPTEN__` variant, whatever the
script, `main` does not return and neither handle is destroyed. -/
theorem host_success_no_teardown (lib : Lib) (ticks : List (List SDL_Event))
    (hinit : 0 ≤ lib.initRet) (hw : lib.window ≠ 0) (hr : lib.renderer ≠ 0) :
    (main true lib ticks).exit = none ∧
      (main true lib ticks).trace.countP Call.isDestroyRenderer = 0 ∧
      (main true lib ticks).trace.countP Call.isDestroyWindow = 0 := by
  have hloop : ∀ c ∈ (hostLoop (readyState lib) ticks).trace,
      c.isDestroyRenderer = false ∧ c.isDestroyWindow = false := by
    intro c hc
    have := hostLoop_inLoop _ _ c hc
    cases c <;> simp_all [Call.inLoop, Call.isDestroyRenderer, Call.isDestroyWindow]
  rw [main_host_success lib ticks hinit hw hr]
  refine ⟨rfl, ?_, ?_⟩
  · rw [List.countP_eq_zero]
    intro c hc
    simp only [List.mem_append, List.mem_cons] at hc
    rcases hc with (hc | hc) | hc | hc
    · simp only [acquire, List.mem_cons, List.mem_singleton, List.not_mem_nil, or_false] at hc
      rcases hc with rfl | rfl | rfl <;> simp [Call.isDestroyRenderer]
    · rw [render_eq] at hc
      simp only [List.mem_cons, List.mem_singleton, List.not_mem_nil, or_false] at hc
      rcases hc with h | h | h | h | h | h | h | h | h | h | h | h | h | h | h | h | h | h
        | h | h | h | h | h | h <;> subst h <;> simp [Call.isDestroyRenderer]
    · subst hc; simp [Call.isDestroyRenderer]
    · simp [(hloop c hc).1]
  · rw [List.countP_eq_zero]
    intro c hc
    simp only [List.mem_append, List.mem_cons] at hc
    rcases hc with (hc | hc) | hc | hc
    · simp only [acquire, List.mem_cons, List.mem_singleton, List.not_mem_nil, or_false] at hc
      rcases hc with rfl | rfl | rfl <;> simp [Call.isDestroyWindow]
    · rw [render_eq] at hc
      simp only [List.mem_cons, List.mem_singleton, List.not_mem_nil, or_false] at hc
      rcases hc with h | h | h | h | h | h | h | h | h | h | h | h | h | h | h | h | h | h
        | h | h | h | h | h | h <;> subst h <;> simp [Call.isDestroyWindow]
    · subst hc; simp [Call.isDestroyWindow]
    · simp [(hloop c hc).2]

/-- In both variants the tick that observes the quit event is the last one
dispatched: the ticks of the script after it stay pending, and both variants
have polled the same events. -/
theorem both_variants_stop_at_quit_tick (lib : Lib) (calm later : List (List SDL_Event))
    (qt : List SDL_Event)
    (hinit : 0 ≤ lib.initRet) (hw : lib.window ≠ 0) (hr : lib.renderer ≠ 0)
    (hcalm : ∀ q ∈ calm, observesQuit q = false) (hqt : observesQuit qt = true) :
    (main false lib (calm ++ qt :: later)).pending = later ∧
      (main true lib (calm ++ qt :: later)).pending = later ∧
      (main false lib (calm ++ qt :: later)).state = ⟨lib.window, lib.renderer, true⟩ ∧
      (main true lib (calm ++ qt :: later)).state = ⟨lib.window, lib.renderer, true⟩ := by
  rw [main_native_success lib _ hinit hw hr, main_host_success lib _ hinit hw hr,
    whileNotQuit_split (readyState lib) calm later qt rfl hcalm hqt,
    hostLoop_split (readyState lib) calm later qt hcalm hqt]
  exact ⟨rfl, rfl, rfl, rfl⟩

/-- C4 (host-cooperative equivalence), evaluated on the script of one non-quit
event, then the quit event, then a further tick, with every library call
succeeding.  Both variants present once and dispatch no tick after the one that
observes the quit event; the self-driven variant then destroys the renderer and
the window once each and returns 0, whereas the `__EMSCRIPTEN__` variant ends
its trace with `emscripten_cancel_main_loop` and the draining poll: `main` has
not returned and neither handle is destroyed. -/
theorem host_variant_skips_teardown :
    (main false ⟨0, 7, 9⟩ [[⟨1024⟩], [⟨SDL_QUIT⟩], [⟨768⟩]]).trace.countP Call.isPresent = 1 ∧
      (main true ⟨0, 7, 9⟩ [[⟨1024⟩], [⟨SDL_QUIT⟩], [⟨768⟩]]).trace.countP Call.isPresent = 1 ∧
      (main false ⟨0, 7, 9⟩ [[⟨1024⟩], [⟨SDL_QUIT⟩], [⟨768⟩]]).pending = [[⟨768⟩]] ∧
      (main true ⟨0, 7, 9⟩ [[⟨1024⟩], [⟨SDL_QUIT⟩], [⟨768⟩]]).pending = [[⟨768⟩]] ∧
      (main false ⟨0, 7, 9⟩ [[⟨1024⟩], [⟨SDL_QUIT⟩], [⟨768⟩]]).exit = some 0 ∧
      (main false ⟨0, 7, 9⟩ [[⟨1024⟩], [⟨SDL_QUIT⟩], [⟨768⟩]]).trace.filter
          (fun c => c.isDestroyRenderer || c.isDestroyWindow)
        = [Call.SDL_DestroyRenderer 9, Call.SDL_DestroyWindow 7] ∧
      (main true ⟨0, 7, 9⟩ [[⟨1024⟩], [⟨SDL_QUIT⟩], [⟨768⟩]]).exit = none ∧
      (main true ⟨0, 7, 9⟩ [[⟨1024⟩], [⟨SDL_QUIT⟩], [⟨768⟩]]).trace.filter
          (fun c => c.isDestroyRenderer || c.isDestroyWindow)
        = [] ∧
      (main true ⟨0, 7, 9⟩ [[⟨1024⟩], [⟨SDL_QUIT⟩], [⟨768⟩]]).trace.drop 27
        = [Call.emscripten_set_main_loop_arg 0 true,
           Call.SDL_PollEvent (some ⟨1024⟩), Call.SDL_PollEvent none,
           Call.SDL_PollEvent (some ⟨SDL_QUIT⟩), Call.emscripten_cancel_main_loop,
           Call.SDL_PollEvent none] := by
  decide

end RedX
